import Mathlib

/-!
# Verification of the meta-bot constructor (`main.py`)

Shallow embedding of the data model and operations of the Telegram
bot-constructor repository: the SQLite-backed scene store, the scene
renderer, the per-token worker supervisor, and the placeholder engine
described by the design document.

Conventions of the embedding:

* SQLite tables become Lean structures holding a list of rows plus a
  `nextId` counter modelling the `AUTOINCREMENT` rowid supply (the next
  inserted row receives `nextId`, which is strictly greater than every
  id ever handed out).
* `INSERT OR REPLACE` with a `UNIQUE` constraint deletes every
  conflicting row and appends a fresh row with a fresh id, exactly as
  SQLite does for `scenes(bot_id, name)`.
* The in-memory worker registry `user_bots : Dict[str, ...]` becomes an
  association list from tokens to opaque worker handles (naturals drawn
  from a `nextWorker` supply).
* Network calls (`check_bot_token`, Telegram sends/edits) become oracle
  parameters: a set of valid tokens, and a `Gateway` record saying which
  edit calls the gateway would accept and which fresh message id a send
  would produce.
* Python exceptions that a function lets escape are modelled by explicit
  outcome constructors; `try/except` blocks are modelled by the branch
  the handler takes.
-/

namespace KneoBot

/-! ## Data model: SQLite rows and tables (`init_db`, main.py lines 70-112) -/

/-- One row of the `scenes` table: `id INTEGER PRIMARY KEY AUTOINCREMENT,
bot_id, name, content_type DEFAULT 'text', file_id, caption,
buttons_json DEFAULT '[]'`, with `UNIQUE(bot_id, name)`. -/
structure SceneRow where
  id : Nat
  bot_id : Nat
  name : String
  content_type : String
  file_id : Option String
  caption : Option String
  buttons_json : String
  deriving Repr, DecidableEq

/-- The `scenes` table: its rows in insertion order plus the
`AUTOINCREMENT` id supply. -/
structure ScenesTable where
  rows : List SceneRow
  nextId : Nat
  deriving Repr, DecidableEq

/-- One row of the `user_bots` table: `id INTEGER PRIMARY KEY
AUTOINCREMENT, user_id, bot_token TEXT UNIQUE, bot_username,
is_active DEFAULT 1, start_scene DEFAULT 'start'`. -/
structure BotRow where
  id : Nat
  user_id : Nat
  bot_token : String
  bot_username : String
  is_active : Bool
  start_scene : String
  deriving Repr, DecidableEq

/-- The `user_bots` table with its `AUTOINCREMENT` id supply. -/
structure BotsTable where
  rows : List BotRow
  nextId : Nat
  deriving Repr, DecidableEq

/-- The persistent database: the two tables the claims touch. -/
structure DB where
  bots : BotsTable
  scenes : ScenesTable
  deriving Repr, DecidableEq

/-- `get_scene` (main.py 170-178): `SELECT * FROM scenes WHERE bot_id = ?
AND name = ?`; at most one row exists by `UNIQUE(bot_id, name)`, and
`fetchone` returns the first. -/
def get_scene (t : ScenesTable) (bot_id : Nat) (scene_name : String) : Option SceneRow :=
  t.rows.find? (fun r => r.bot_id == bot_id && r.name == scene_name)

/-- `get_bot_by_token` (main.py 150-158): `SELECT * FROM user_bots WHERE
bot_token = ?`. -/
def get_bot_by_token (t : BotsTable) (token : String) : Option BotRow :=
  t.rows.find? (fun r => r.bot_token == token)

/-- `save_scene` (main.py 180-187): `INSERT OR REPLACE INTO scenes
(bot_id, name, content_type, file_id, caption) VALUES (?, ?, ?, ?, ?)`.
SQLite resolves the `UNIQUE(bot_id, name)` conflict by deleting the old
row and inserting a brand-new one; the unlisted columns take their
defaults (`buttons_json = '[]'`) and the `AUTOINCREMENT` id is fresh. -/
def save_scene (t : ScenesTable) (bot_id : Nat) (scene_name content_type : String)
    (file_id caption : Option String) : ScenesTable :=
  { rows := t.rows.filter (fun r => !(r.bot_id == bot_id && r.name == scene_name)) ++
      [{ id := t.nextId, bot_id := bot_id, name := scene_name,
         content_type := content_type, file_id := file_id, caption := caption,
         buttons_json := "[]" }],
    nextId := t.nextId + 1 }

/-- `update_scene_buttons` (main.py 206-213): `UPDATE scenes SET
buttons_json = ? WHERE bot_id = ? AND name = ?`. -/
def update_scene_buttons (t : ScenesTable) (bot_id : Nat) (scene_name : String)
    (buttons_json : String) : ScenesTable :=
  { t with rows := t.rows.map (fun r =>
      if r.bot_id == bot_id && r.name == scene_name then
        { r with buttons_json := buttons_json } else r) }

/-- Outcome of `save_bot_token`: a committed write, or an
`IntegrityError` raised by the `INSERT`, in which case the uncommitted
transaction — the preceding `DELETE` included — rolls back when the
connection closes and the database is unchanged. -/
inductive SaveBotTokenOutcome where
  | ok
  | integrityError
  deriving Repr, DecidableEq

/-- `save_bot_token` (main.py 123-138): `DELETE FROM user_bots WHERE
user_id = ?` followed by a plain `INSERT INTO user_bots (user_id,
bot_token, bot_username, start_scene) VALUES (?, ?, ?, 'start')` and a
`commit`.  The `INSERT` is checked against the schema's `bot_token TEXT
UNIQUE` constraint on the table state after the `DELETE`, so a
colliding row of the same user is already gone, but a row with the
same token owned by a different user survives the delete and makes the
`INSERT` raise `IntegrityError`; the exception propagates and the
whole transaction rolls back, leaving both tables as they were.  On
success the commit lands; the `scenes` table is not touched by either
statement. -/
def save_bot_token (db : DB) (user_id : Nat) (token bot_username : String) :
    DB × SaveBotTokenOutcome :=
  let remaining := db.bots.rows.filter (fun r => !(r.user_id == user_id))
  if remaining.any (fun r => r.bot_token == token) then
    (db, .integrityError)
  else
    ({ db with bots :=
        { rows := remaining ++
            [{ id := db.bots.nextId, user_id := user_id, bot_token := token,
               bot_username := bot_username, is_active := true,
               start_scene := "start" }],
          nextId := db.bots.nextId + 1 } }, .ok)

/-! ## Worker supervisor (`user_bots` registry, main.py 40, 1509-1603) -/

/-- The process-wide registry `user_bots: Dict[str, Tuple[Bot, Dispatcher,
Task]]` plus a supply of fresh worker handles. Handles stand in for the
`(Bot, Dispatcher, Task)` triple. -/
structure Supervisor where
  user_bots : List (String × Nat)
  nextWorker : Nat
  deriving Repr, DecidableEq

/-- `token in user_bots`. -/
def Supervisor.registered (s : Supervisor) (token : String) : Bool :=
  s.user_bots.any (fun p => p.1 == token)

/-- `start_user_bot` (main.py 1509-1552).  In order: return `True` at
once if the token is already registered; return `False` if
`get_bot_by_token` finds no row; return `False` if `check_bot_token`
rejects the token (modelled by the `validTokens` oracle); otherwise
spawn a worker, register it under the token, and return `True`. -/
def start_user_bot (db : BotsTable) (validTokens : List String)
    (s : Supervisor) (token : String) : Supervisor × Bool :=
  if s.registered token then (s, true)
  else match get_bot_by_token db token with
    | none => (s, false)
    | some _ =>
      if validTokens.contains token then
        ({ user_bots := s.user_bots ++ [(token, s.nextWorker)],
           nextWorker := s.nextWorker + 1 }, true)
      else (s, false)

/-- How `run_user_bot_polling` (main.py 1554-1564) terminates: the
polling call returns normally (after `stop_polling`), raises an
`Exception` (caught and logged by the handler), or is cancelled
(`CancelledError` is not an `Exception`, so it passes the handler). -/
inductive PollExit where
  | normal
  | errored
  | cancelled
  deriving Repr, DecidableEq

/-- The registry effect of `run_user_bot_polling` (main.py 1554-1564):
whatever way the polling loop ends, the `finally` block runs
`if token in user_bots: del user_bots[token]`. -/
def run_user_bot_polling (regs : List (String × Nat)) (token : String)
    (ex : PollExit) : List (String × Nat) :=
  match ex with
  | _ =>
    if regs.any (fun p => p.1 == token) then
      regs.filter (fun p => !(p.1 == token))
    else regs

/-- Outcome of `stop_user_bot`: a normal return carrying the boolean, or
an uncaught `KeyError` escaping the function. -/
inductive StopOutcome where
  | ret (ok : Bool)
  | keyError
  deriving Repr, DecidableEq

/-- `stop_user_bot` (main.py 1566-1586).  If the token is registered it
cancels the worker task and does `await task`; awaiting the task lets
the task's `finally` block in `run_user_bot_polling` run to completion
first (the single asyncio loop guarantees this ordering), which removes
the token from `user_bots`.  The subsequent unguarded
`del user_bots[token]` therefore operates on a registry that no longer
holds the token and raises `KeyError`.  If the token is not registered
the function returns `False`. -/
def stop_user_bot (s : Supervisor) (token : String) : Supervisor × StopOutcome :=
  if s.registered token then
    -- `await task`: the worker's `finally` deletes the token first
    let regs := run_user_bot_polling s.user_bots token .cancelled
    -- `del user_bots[token]` with no guard: KeyError when absent
    if regs.any (fun p => p.1 == token) then
      ({ s with user_bots := regs.filter (fun p => !(p.1 == token)) }, .ret true)
    else
      ({ s with user_bots := regs }, .keyError)
  else (s, .ret false)

/-! ## Watermark and scene rendering (main.py 40-41, 380-530) -/

/-- `WATERMARK` (main.py 41). -/
def WATERMARK : String := "⚒️ Бот создан с помощью @KneoFreeBot\n\n"

/-- `add_watermark` (main.py 380-384): prepend the watermark to a
non-empty text; for empty/None text return the stripped watermark. -/
def add_watermark (text : String) : String :=
  if text ≠ "" then WATERMARK ++ text else WATERMARK.trim

/-- The caption shown for a scene (main.py 402): watermarked caption, or
the stripped watermark when the caption is NULL/empty. -/
def scene_caption (caption : Option String) : String :=
  match caption with
  | some c => if c ≠ "" then add_watermark c else WATERMARK.trim
  | none => WATERMARK.trim

/-- The messaging-gateway oracle for one `render_scene` call:
whether the gateway accepts the single `edit_message_text` call the
branch may make, and the message id a fresh send would be given.
Sends and deletes themselves are modelled as succeeding; the claims
under study concern rejected edits. -/
structure Gateway where
  editTextOk : Bool
  freshId : Nat
  deriving Repr, DecidableEq

/-- `render_scene` (main.py 396-530), returning the `message_id` of the
delivered message, or `none` when the outer `except` swallows an error
and the function returns `None`.

Branch notes, traced from the source:
* `content_type == 'text'` with a previous `message_id`: a single
  `edit_message_text` with no inner handler; if the gateway rejects it
  the exception reaches the outer handler and the function returns
  `None` — there is no delete-and-resend fallback on this path.
* `content_type == 'photo'`/`'video'` with a `file_id` and a previous
  `message_id`: the inner `try` builds `InputMediaPhoto` /
  `InputMediaVideo`, names that are never imported in main.py, so the
  attempt raises `NameError` before the gateway is reached; the bare
  `except:` then always takes the delete-old-message-and-resend
  fallback, returning the fresh send's id.
* any branch without a previous `message_id` sends fresh.
* the final `else` (unknown type or missing `file_id`) delivers an
  error notice, editing in place when a `message_id` exists. -/
def render_scene (gw : Gateway) (scene : SceneRow) (message_id : Option Nat) :
    Option Nat :=
  if scene.content_type == "text" then
    match message_id with
    | some m => if gw.editTextOk then some m else none
    | none => some gw.freshId
  else if scene.content_type == "photo" && scene.file_id.isSome then
    match message_id with
    | some _ => some gw.freshId   -- NameError in the inner try: always fall back
    | none => some gw.freshId
  else if scene.content_type == "video" && scene.file_id.isSome then
    match message_id with
    | some _ => some gw.freshId   -- NameError in the inner try: always fall back
    | none => some gw.freshId
  else
    match message_id with
    | some m => if gw.editTextOk then some m else none
    | none => some gw.freshId

/-! ## User-bot handlers (main.py 1451-1507) -/

/-- What the `/start` handler of a managed bot does with the event. -/
inductive StartEventResult where
  | notice (text : String)
  | rendered (message_id : Option Nat)
  deriving Repr, DecidableEq

/-- `user_bot_start` (main.py 1458-1472): look up the bot's designated
start scene; if it is missing, answer with a watermarked
"scene not configured" notice and return (the polling loop continues);
otherwise render the scene. -/
def user_bot_start (scenes : ScenesTable) (bot : BotRow) (gw : Gateway) :
    StartEventResult :=
  match get_scene scenes bot.id bot.start_scene with
  | none => .notice (add_watermark "Добро пожаловать! Сцена \x27start\x27 не настроена.")
  | some scene => .rendered (render_scene gw scene none)

/-! ## Scene-name validation and creation (main.py 576-667) -/

/-- Python's `str.strip()`: drop whitespace from both ends.  Written on
the character list so that it evaluates by kernel reduction. -/
def pyStrip (s : String) : String :=
  ⟨((s.data.dropWhile Char.isWhitespace).reverse.dropWhile Char.isWhitespace).reverse⟩

/-- Python's `str.lower()` on the ASCII inputs the claims exercise. -/
def pyLower (s : String) : String :=
  ⟨s.data.map Char.toLower⟩

/-- Python's `str.isalnum()` restricted to the ASCII inputs the claims
exercise: non-empty and every character alphanumeric.  (Python also
accepts non-ASCII letters; every input appearing in a theorem below is
ASCII, where the two agree.) -/
def pyIsAlnum (s : String) : Bool :=
  !(s.data == []) && s.data.all Char.isAlphanum

/-- The allowed-token pattern `[A-Za-z0-9_]+` named by the design
document for scene identifiers. -/
def matchesTokenPattern (s : String) : Bool :=
  !(s.data == []) && s.data.all (fun c => c.isAlphanum || c == '_')

/-- Result of the scene-name step of the creation wizard. -/
inductive SceneNameResult where
  | invalidIdentifier
  | duplicateScene
  | accepted (scene_name : String)
  deriving Repr, DecidableEq

/-- `process_scene_name` (main.py 636-667): lowercase the stripped
input; reject with the invalid-identifier notice when
`not scene_name.isalnum() or ' ' in scene_name`; reject with the
duplicate-scene notice when `get_scene` already finds the name for this
bot; otherwise accept the name and move on to the content step. -/
def process_scene_name (scenes : ScenesTable) (bot_id : Nat) (input : String) :
    SceneNameResult :=
  let scene_name := pyLower (pyStrip input)
  if !(pyIsAlnum scene_name) || scene_name.data.contains ' ' then
    .invalidIdentifier
  else if (get_scene scenes bot_id scene_name).isSome then
    .duplicateScene
  else
    .accepted scene_name

/-- The complete scene-creation flow of the wizard: the name step
(`process_scene_name`, which performs no database write) followed, on
acceptance, by the content step's `save_scene` call
(main.py 702-725 / 778-801).  A rejected name leaves the store
untouched. -/
def create_scene_flow (scenes : ScenesTable) (bot_id : Nat) (input : String)
    (content_type : String) (file_id caption : Option String) :
    ScenesTable × SceneNameResult :=
  match process_scene_name scenes bot_id input with
  | .invalidIdentifier => (scenes, .invalidIdentifier)
  | .duplicateScene => (scenes, .duplicateScene)
  | .accepted scene_name =>
      (save_scene scenes bot_id scene_name content_type file_id caption,
       .accepted scene_name)

/-! ## Placeholder resolution (Variable Engine, design §4.2)

No placeholder-substitution code ships under `src/`: `main.py`'s
renderer delivers captions verbatim and `template_stars.py` is the
out-of-scope gamification template.  The following definitions are
modelled from the spec. -/

/-- A word character of a `##name##` token: `\w`, i.e. `[A-Za-z0-9_]`. -/
def isWordChar (c : Char) : Bool :=
  c.isAlphanum || c == '_'

/-- Modelled from the spec: resolution of one `##name##` token.  The
user variable's value if present; else the computed-variable fallback;
else the token itself, verbatim. -/
def resolveToken (vars : List (String × String)) (fallback : String → Option String)
    (name : String) : String :=
  match (vars.find? (fun p => p.1 == name)).map Prod.snd with
  | some v => v
  | none =>
    match fallback name with
    | some v => v
    | none => "##" ++ name ++ "##"

/-- Modelled from the spec: the end user a managed bot is talking to,
carrying the three well-known computed variables. -/
structure EndUser where
  displayName : String
  numericId : Nat
  handle : String
  deriving Repr, DecidableEq

/-- Modelled from the spec: the fallback map over the three well-known
computed variables — the user's display name, numeric id and handle. -/
def computedFallback (u : EndUser) : String → Option String :=
  fun name =>
    if name == "name" then some u.displayName
    else if name == "ID" then some (toString u.numericId)
    else if name == "username" then some u.handle
    else none

/-- Modelled from the spec: the left-to-right scanner behind
`resolvePlaceholders`.  At `##` it takes the longest run of word
characters; if that run is non-empty and followed by `##` the token is
resolved and scanning continues after it, otherwise one character is
emitted and scanning resumes (so overlapping `#`s are handled the way a
`##(\w+)##` regex substitution would). -/
def scanPlaceholders (vars : List (String × String))
    (fallback : String → Option String) : List Char → List Char
  | [] => []
  | c :: rest =>
    if c = '#' ∧ rest.take 1 = ['#'] then
      -- the input starts with "##": try to read a token
      let afterHash := rest.drop 1
      let w := afterHash.takeWhile isWordChar
      let rest' := afterHash.dropWhile isWordChar
      if w ≠ [] ∧ rest'.take 2 = ['#', '#'] then
        (resolveToken vars fallback ⟨w⟩).data ++
          scanPlaceholders vars fallback (rest'.drop 2)
      else
        -- not a token: emit one '#' and rescan from the second '#'
        c :: scanPlaceholders vars fallback rest
    else c :: scanPlaceholders vars fallback rest
termination_by cs => cs.length
decreasing_by
  · simp only [List.length_cons]
    have h1 : ((rest.drop 1).dropWhile isWordChar).length ≤ (rest.drop 1).length :=
      (List.dropWhile_sublist isWordChar).length_le
    have h2 : (((rest.drop 1).dropWhile isWordChar).drop 2).length =
        ((rest.drop 1).dropWhile isWordChar).length - 2 := List.length_drop 2 _
    have h3 : (rest.drop 1).length = rest.length - 1 := List.length_drop 1 rest
    omega
  · simp only [List.length_cons]; omega
  · simp only [List.length_cons]; omega

/-- Modelled from the spec: `resolvePlaceholders(text, userId)` — scan
`text` for `##name##` tokens (word characters only) and replace each
per `resolveToken`; text outside tokens is passed through unchanged.
Total by construction: it never fails. -/
def resolvePlaceholders (vars : List (String × String))
    (fallback : String → Option String) (text : String) : String :=
  ⟨scanPlaceholders vars fallback text.data⟩

/-! ## Theorems -/

/-- C1: Supervisor start is idempotent — for a token already present in
the running-worker registry, `start_user_bot` returns `True` without
touching the registry, so no second worker is created or registered
under that token and the registry keeps a single entry for it. -/
theorem start_user_bot_idempotent (db : BotsTable) (validTokens : List String)
    (s : Supervisor) (token : String) (hreg : s.registered token = true) :
    start_user_bot db validTokens s token = (s, true) ∧
    ((start_user_bot db validTokens s token).1.user_bots.filter
        (fun p => p.1 == token)).length =
      (s.user_bots.filter (fun p => p.1 == token)).length := by
  refine ⟨?_, ?_⟩ <;> simp [start_user_bot, hreg]

/-- Witness for C1: starting an already-registered token on a concrete
registry returns `True` and leaves the single worker in place. -/
theorem start_user_bot_idempotent_witness :
    start_user_bot ⟨[], 0⟩ [] ⟨[("T", 0)], 1⟩ "T" = (⟨[("T", 0)], 1⟩, true) ∧
    ((start_user_bot ⟨[], 0⟩ [] ⟨[("T", 0)], 1⟩ "T").1.user_bots.filter
        (fun p => p.1 == "T")).length =
      (([("T", 0)] : List (String × Nat)).filter (fun p => p.1 == "T")).length :=
  start_user_bot_idempotent ⟨[], 0⟩ [] ⟨[("T", 0)], 1⟩ "T" (by decide)

/-- C2: evaluation of the code at the failing input.  Stopping a token
that has a registered running worker does deregister it, but the
function then raises `KeyError` instead of returning `True`: awaiting
the cancelled task runs the worker's `finally` block, which already
removed the token, so the following unguarded `del user_bots[token]`
fails.  A second call (token now absent) returns `False` as claimed. -/
theorem stop_user_bot_keyError :
    stop_user_bot ⟨[("T", 0)], 1⟩ "T" = (⟨[], 1⟩, .keyError) ∧
    stop_user_bot ⟨[], 1⟩ "T" = (⟨[], 1⟩, .ret false) := by
  refine ⟨?_, ?_⟩ <;> rfl

/-- C7: whatever way a worker's polling loop terminates — normal return,
an upstream `Exception`, or cancellation — the `finally` block of
`run_user_bot_polling` leaves no entry for the worker's token in the
registry, so a stale entry never survives a dead worker. -/
theorem run_user_bot_polling_deregisters (regs : List (String × Nat))
    (token : String) (ex : PollExit) :
    ∀ p ∈ run_user_bot_polling regs token ex, p.1 ≠ token := by
  intro p hp hc
  cases ex <;>
  · simp only [run_user_bot_polling] at hp
    split at hp
    · exact absurd (by simpa using hc) (by simpa using (List.mem_filter.mp hp).2)
    · next hany =>
      apply hany
      rw [List.any_eq_true]
      exact ⟨p, hp, by simpa using hc⟩

/-- Witness for C7: after an errored polling loop for token `T`, the
surviving entry of a concrete registry is not `T`. -/
theorem run_user_bot_polling_deregisters_witness :
    ("A", 1) ∈ run_user_bot_polling [("A", 1), ("T", 0)] "T" .errored ∧
    ("A", 1).1 ≠ "T" :=
  ⟨by decide,
   run_user_bot_polling_deregisters [("A", 1), ("T", 0)] "T" .errored
     ("A", 1) (by decide)⟩

/-- C3: evaluation of the code at the failing input.  The identifier
`main_menu` matches the allowed token pattern `[A-Za-z0-9_]+` (and is
the very example the wizard's own prompt suggests), yet
`process_scene_name` rejects it with the invalid-identifier notice,
because Python's `str.isalnum()` is false for underscores. -/
theorem process_scene_name_rejects_underscore :
    process_scene_name ⟨[], 0⟩ 1 "main_menu" = .invalidIdentifier ∧
    matchesTokenPattern "main_menu" = true := by
  refine ⟨?_, ?_⟩ <;> decide

/-- C4: on a start-trigger event, when the bot's designated start scene
is absent from the scene store, the worker's handler answers with the
watermarked "scene not configured" notice and returns normally — the
missing scene is handled, not raised, so the polling loop continues. -/
theorem user_bot_start_missing_scene (scenes : ScenesTable) (bot : BotRow)
    (gw : Gateway) (h : get_scene scenes bot.id bot.start_scene = none) :
    user_bot_start scenes bot gw =
      .notice (add_watermark "Добро пожаловать! Сцена \x27start\x27 не настроена.") := by
  simp [user_bot_start, h]

/-- Witness for C4: a bot whose scene store is empty gets the notice. -/
theorem user_bot_start_missing_scene_witness :
    user_bot_start ⟨[], 0⟩ ⟨1, 2, "T", "mybot", true, "start"⟩ ⟨true, 0⟩ =
      .notice (add_watermark "Добро пожаловать! Сцена \x27start\x27 не настроена.") :=
  user_bot_start_missing_scene ⟨[], 0⟩ ⟨1, 2, "T", "mybot", true, "start"⟩ ⟨true, 0⟩ rfl

/-- C5 counterexample: delivering a transition to a text scene with a
previous message id, when the gateway rejects the edit, yields no
delivered message at all — `render_scene` returns `None`, not the id of
a delivered message, because the text branch has no delete-and-resend
fallback (the exception reaches the outer handler). -/
theorem render_scene_text_edit_rejected_returns_none :
    render_scene ⟨false, 7⟩ ⟨1, 1, "start", "text", none, some "hi", "[]"⟩
      (some 5) = none := by
  rfl

/-- C5 (amended): with a previous outbound message id, a text scene is
delivered by editing that message in place, returning its id, when the
gateway accepts the edit, and yields no message id (`None`) when the
edit is rejected; a photo or video scene carrying media is always
delivered by deleting the old message and sending a fresh one, whose id
is returned — the delete-and-resend fallback exists only on the media
branches. -/
theorem render_scene_edit_fallback (gw : Gateway) (scene : SceneRow) (m : Nat) :
    (scene.content_type = "text" →
      render_scene gw scene (some m) =
        if gw.editTextOk then some m else none) ∧
    (scene.content_type = "photo" ∨ scene.content_type = "video" →
      scene.file_id.isSome = true →
      render_scene gw scene (some m) = some gw.freshId) := by
  constructor
  · intro h
    simp [render_scene, h]
  · rintro (h | h) hf <;> simp [render_scene, h, hf]

/-- Witness for C5 (amended): a photo scene with a previous message id
is delivered as a fresh message carrying the gateway's fresh id. -/
theorem render_scene_edit_fallback_witness :
    render_scene ⟨true, 7⟩ ⟨1, 1, "s", "photo", some "FILE", some "hi", "[]"⟩
      (some 5) = some 7 :=
  (render_scene_edit_fallback ⟨true, 7⟩
    ⟨1, 1, "s", "photo", some "FILE", some "hi", "[]"⟩ 5).2 (Or.inl rfl) rfl

/-- C6: when a scene with the same `(bot_id, name)` pair already exists,
the creation wizard stops at the duplicate-scene rejection and writes
nothing: the store comes back unchanged, so the existing row survives
the failed attempt untouched. -/
theorem create_scene_flow_duplicate (scenes : ScenesTable) (bot_id : Nat)
    (input content_type : String) (file_id caption : Option String) (r : SceneRow)
    (hvalid : pyIsAlnum (pyLower (pyStrip input)) = true)
    (hnospace : (pyLower (pyStrip input)).data.contains ' ' = false)
    (hdup : get_scene scenes bot_id (pyLower (pyStrip input)) = some r) :
    create_scene_flow scenes bot_id input content_type file_id caption =
      (scenes, .duplicateScene) ∧
    get_scene (create_scene_flow scenes bot_id input content_type
        file_id caption).1 bot_id (pyLower (pyStrip input)) = some r := by
  have hmain : create_scene_flow scenes bot_id input content_type file_id caption =
      (scenes, .duplicateScene) := by
    have hns : ' ' ∉ (pyLower (pyStrip input)).data := by
      simpa using hnospace
    unfold create_scene_flow process_scene_name
    simp [hvalid, hns, hdup]
  exact ⟨hmain, by rw [hmain]; exact hdup⟩

/-- Witness for C6: re-creating the `start` scene of a bot whose store
already holds it is rejected and leaves the stored row in place. -/
theorem create_scene_flow_duplicate_witness :
    create_scene_flow ⟨[⟨0, 1, "start", "text", none, some "hi", "[]"⟩], 1⟩ 1
        "start" "text" none (some "new") =
      (⟨[⟨0, 1, "start", "text", none, some "hi", "[]"⟩], 1⟩, .duplicateScene) ∧
    get_scene (create_scene_flow ⟨[⟨0, 1, "start", "text", none, some "hi", "[]"⟩], 1⟩
        1 "start" "text" none (some "new")).1 1 (pyLower (pyStrip "start")) =
      some ⟨0, 1, "start", "text", none, some "hi", "[]"⟩ :=
  create_scene_flow_duplicate ⟨[⟨0, 1, "start", "text", none, some "hi", "[]"⟩], 1⟩ 1
    "start" "text" none (some "new") ⟨0, 1, "start", "text", none, some "hi", "[]"⟩
    (by decide) (by decide) (by decide)

/-- C9: re-saving a scene whose `(bot_id, name)` pair already exists
replaces the stored row wholesale: `INSERT OR REPLACE` deletes the old
row and inserts a fresh one, so the lookup afterwards finds a row whose
`buttons_json` is back to the default `'[]'` — every previously attached
button is silently discarded — and whose rowid is the fresh
`AUTOINCREMENT` value, different from the old row's id. -/
theorem save_scene_replaces_row (t : ScenesTable) (r : SceneRow)
    (content_type : String) (file_id caption : Option String)
    (hmem : r ∈ t.rows) (hid : r.id < t.nextId) :
    get_scene (save_scene t r.bot_id r.name content_type file_id caption)
        r.bot_id r.name =
      some ⟨t.nextId, r.bot_id, r.name, content_type, file_id, caption, "[]"⟩ ∧
    t.nextId ≠ r.id := by
  constructor
  · unfold get_scene save_scene
    rw [List.find?_append]
    have hnone : (t.rows.filter
        (fun q => !(q.bot_id == r.bot_id && q.name == r.name))).find?
        (fun q => q.bot_id == r.bot_id && q.name == r.name) = none := by
      rw [List.find?_eq_none]
      intro q hq
      have h2 := (List.mem_filter.mp hq).2
      simp only [Bool.not_eq_true'] at h2
      simp [h2]
    rw [hnone]
    simp
  · omega

/-- Witness for C9: re-saving the `start` scene of a concrete store that
holds one row with an attached button discards the button and changes
the row id from 0 to 1. -/
theorem save_scene_replaces_row_witness :
    get_scene (save_scene
        ⟨[⟨0, 1, "start", "text", none, some "old",
          "[\x7b\"text\": \"Go\", \"type\": \"scene\", \"target_scene\": \"s2\"\x7d]"⟩], 1⟩
        1 "start" "text" none (some "new")) 1 "start" =
      some ⟨1, 1, "start", "text", none, some "new", "[]"⟩ ∧
    (1 : Nat) ≠ 0 :=
  save_scene_replaces_row
    ⟨[⟨0, 1, "start", "text", none, some "old",
      "[\x7b\"text\": \"Go\", \"type\": \"scene\", \"target_scene\": \"s2\"\x7d]"⟩], 1⟩
    ⟨0, 1, "start", "text", none, some "old",
      "[\x7b\"text\": \"Go\", \"type\": \"scene\", \"target_scene\": \"s2\"\x7d]"⟩
    "text" none (some "new") (by simp) (by decide)

/-- C10: saving a bot token for a constructor user first deletes every
bot row of that user and then inserts the fresh definition; when no
other user's row holds the same token (so the `UNIQUE(bot_token)`
check on the post-`DELETE` table passes and the `INSERT` commits
instead of raising `IntegrityError`), afterwards the user owns exactly
the one new row, whose start-scene identifier is `'start'`; the
`scenes` table is untouched by the operation, and (with distinct
rowids) no bot row carries the replaced bot's id any more — its scenes
are orphaned, not cascade-deleted. -/
theorem save_bot_token_replaces_bot (db : DB) (uid : Nat)
    (token username : String) (r : BotRow)
    (hmem : r ∈ db.bots.rows) (huser : r.user_id = uid)
    (hid : r.id < db.bots.nextId)
    (huniq : ∀ q ∈ db.bots.rows, q.id = r.id → q.user_id = uid)
    (hnocol : ∀ q ∈ db.bots.rows, q.bot_token = token → q.user_id = uid) :
    (save_bot_token db uid token username).2 = .ok ∧
    (save_bot_token db uid token username).1.bots.rows.filter
        (fun b => b.user_id == uid) =
      [⟨db.bots.nextId, uid, token, username, true, "start"⟩] ∧
    (save_bot_token db uid token username).1.scenes = db.scenes ∧
    ∀ b ∈ (save_bot_token db uid token username).1.bots.rows, b.id ≠ r.id := by
  have hcond : (db.bots.rows.filter (fun q => !(q.user_id == uid))).any
      (fun q => q.bot_token == token) = false := by
    rw [List.any_eq_false]
    intro q hq
    have hmemq := (List.mem_filter.mp hq).1
    have hne : ¬ q.user_id = uid := by
      simpa using (List.mem_filter.mp hq).2
    intro htok
    exact hne (hnocol q hmemq (by simpa using htok))
  have heq : save_bot_token db uid token username =
      ({ db with bots :=
          { rows := db.bots.rows.filter (fun q => !(q.user_id == uid)) ++
              [⟨db.bots.nextId, uid, token, username, true, "start"⟩],
            nextId := db.bots.nextId + 1 } }, .ok) := by
    unfold save_bot_token
    rw [if_neg]
    simp [hcond]
  refine ⟨by rw [heq], ?_, by rw [heq], ?_⟩
  · rw [heq]
    rw [List.filter_append, List.filter_filter]
    have hnil : db.bots.rows.filter
        (fun a => a.user_id == uid && !(a.user_id == uid)) = [] := by
      rw [List.filter_eq_nil_iff]
      intro a _
      simp
    rw [hnil]
    simp
  · intro b hb hbid
    rw [heq] at hb
    rcases List.mem_append.mp hb with h | h
    · have hne : ¬ b.user_id = uid := by
        simpa using (List.mem_filter.mp h).2
      exact hne (huniq b (List.mem_filter.mp h).1 hbid)
    · have : b = ⟨db.bots.nextId, uid, token, username, true, "start"⟩ := by
        simpa using h
      rw [this] at hbid
      simp at hbid
      omega

/-- Witness for C10: replacing the single bot of user 5 on a concrete
database (no other user holds the new token) commits, leaves exactly
the new row for that user, keeps the old bot's scene rows, and retires
the old bot id. -/
theorem save_bot_token_replaces_bot_witness :
    (save_bot_token
        ⟨⟨[⟨0, 5, "OLD", "oldbot", true, "start"⟩], 1⟩,
         ⟨[⟨0, 0, "start", "text", none, some "hi", "[]"⟩], 1⟩⟩
        5 "NEW" "newbot").2 = .ok ∧
    (save_bot_token
        ⟨⟨[⟨0, 5, "OLD", "oldbot", true, "start"⟩], 1⟩,
         ⟨[⟨0, 0, "start", "text", none, some "hi", "[]"⟩], 1⟩⟩
        5 "NEW" "newbot").1.bots.rows.filter (fun b => b.user_id == 5) =
      [⟨1, 5, "NEW", "newbot", true, "start"⟩] ∧
    (save_bot_token
        ⟨⟨[⟨0, 5, "OLD", "oldbot", true, "start"⟩], 1⟩,
         ⟨[⟨0, 0, "start", "text", none, some "hi", "[]"⟩], 1⟩⟩
        5 "NEW" "newbot").1.scenes =
      ⟨[⟨0, 0, "start", "text", none, some "hi", "[]"⟩], 1⟩ ∧
    ∀ b ∈ (save_bot_token
        ⟨⟨[⟨0, 5, "OLD", "oldbot", true, "start"⟩], 1⟩,
         ⟨[⟨0, 0, "start", "text", none, some "hi", "[]"⟩], 1⟩⟩
        5 "NEW" "newbot").1.bots.rows, b.id ≠ 0 :=
  save_bot_token_replaces_bot
    ⟨⟨[⟨0, 5, "OLD", "oldbot", true, "start"⟩], 1⟩,
     ⟨[⟨0, 0, "start", "text", none, some "hi", "[]"⟩], 1⟩⟩
    5 "NEW" "newbot" ⟨0, 5, "OLD", "oldbot", true, "start"⟩
    (by simp) rfl (by decide) (by decide) (by decide)

/-! ### Helper lemmas for the placeholder scanner -/

lemma scanPlaceholders_cons_ne (vars : List (String × String))
    (fb : String → Option String) (c : Char) (rest : List Char) (hc : c ≠ '#') :
    scanPlaceholders vars fb (c :: rest) = c :: scanPlaceholders vars fb rest := by
  rw [scanPlaceholders]
  simp [hc]

lemma scanPlaceholders_append_ne (vars : List (String × String))
    (fb : String → Option String) (pre rest : List Char)
    (hpre : ∀ c ∈ pre, c ≠ '#') :
    scanPlaceholders vars fb (pre ++ rest) =
      pre ++ scanPlaceholders vars fb rest := by
  induction pre with
  | nil => simp
  | cons c pre ih =>
    rw [List.cons_append,
      scanPlaceholders_cons_ne vars fb c (pre ++ rest)
        (hpre c (List.mem_cons_self c pre)),
      ih (fun d hd => hpre d (List.mem_cons_of_mem c hd))]
    rfl

lemma takeWhile_word_append (l post : List Char)
    (h : ∀ c ∈ l, isWordChar c = true) :
    (l ++ '#' :: post).takeWhile isWordChar = l ∧
    (l ++ '#' :: post).dropWhile isWordChar = '#' :: post := by
  induction l with
  | nil => simp [List.takeWhile_cons, List.dropWhile_cons, isWordChar]
  | cons c l ih =>
    have hc : isWordChar c = true := h c (List.mem_cons_self c l)
    have ihl := ih (fun d hd => h d (List.mem_cons_of_mem c hd))
    simp [List.takeWhile_cons, List.dropWhile_cons, hc, ihl.1, ihl.2]

lemma scanPlaceholders_token (vars : List (String × String))
    (fb : String → Option String) (name : String) (post : List Char)
    (hname : name.data ≠ []) (hword : ∀ c ∈ name.data, isWordChar c = true) :
    scanPlaceholders vars fb ('#' :: '#' :: (name.data ++ '#' :: '#' :: post)) =
      (resolveToken vars fb name).data ++ scanPlaceholders vars fb post := by
  have hsplit := takeWhile_word_append name.data ('#' :: post) hword
  rw [scanPlaceholders]
  simp [hsplit.1, hsplit.2, hname]

/-- C8 (spec-modelled): placeholder resolution is total — it is a plain
function on strings that never fails — and on any text of the shape
`pre ++ "##name##" ++ rest` (with `pre` free of `#` and `name` a
non-empty run of word characters) it emits `pre` unchanged, resolves
the token through `resolveToken` — the user variable's value when
present, else the computed-variable fallback, else the token itself
verbatim — and continues scanning the rest of the text. -/
theorem resolvePlaceholders_substitutes (vars : List (String × String))
    (fb : String → Option String) (pre name post : String)
    (hpre : ∀ c ∈ pre.data, c ≠ '#')
    (hname : name.data ≠ [])
    (hword : ∀ c ∈ name.data, isWordChar c = true) :
    resolvePlaceholders vars fb (pre ++ "##" ++ name ++ "##" ++ post) =
      pre ++ resolveToken vars fb name ++ resolvePlaceholders vars fb post := by
  have hdata : (pre ++ "##" ++ name ++ "##" ++ post).data =
      pre.data ++ ('#' :: '#' :: (name.data ++ '#' :: '#' :: post.data)) := by
    simp [String.data_append]
  unfold resolvePlaceholders
  rw [hdata, scanPlaceholders_append_ne vars fb _ _ hpre,
    scanPlaceholders_token vars fb name post.data hname hword]
  show String.mk (pre.data ++
      ((resolveToken vars fb name).data ++ scanPlaceholders vars fb post.data)) =
    String.mk ((pre.data ++ (resolveToken vars fb name).data) ++
      scanPlaceholders vars fb post.data)
  rw [List.append_assoc]

/-- Witness for C8: the spec's own example — `"Hi ##name##, id ##ID##"`
with `vars = [("name", "Ann")]` and the computed fallback of a user
whose numeric id is 42. -/
theorem resolvePlaceholders_substitutes_witness :
    resolvePlaceholders [("name", "Ann")] (computedFallback ⟨"Ann", 42, "ann42"⟩)
        ("Hi " ++ "##" ++ "name" ++ "##" ++ ", id ##ID##") =
      "Hi " ++
        resolveToken [("name", "Ann")] (computedFallback ⟨"Ann", 42, "ann42"⟩)
          "name" ++
        resolvePlaceholders [("name", "Ann")]
          (computedFallback ⟨"Ann", 42, "ann42"⟩) ", id ##ID##" :=
  resolvePlaceholders_substitutes [("name", "Ann")]
    (computedFallback ⟨"Ann", 42, "ann42"⟩) "Hi " "name" ", id ##ID##"
    (by decide) (by decide) (by decide)

end KneoBot
